import Mathlib

/-!
Verification of the conversation/tier progression controller of the
prompt-diy repository, shallowly embedded from the two source files
`src/components/ChatUI.tsx` (the chat widget) and `src/pages/Index.tsx`
(the landing page with its own chat implementation).

Modelling conventions:
* The widgets are single-threaded and event-driven; every timer-scheduled
  continuation (generation delay, typing effect) is flattened into the
  operation that scheduled it, so an operation's result is the quiescent
  state after all its timers have fired.  The transient `isLoading` /
  `isTypingEffect` flags are therefore always false at the points we model
  and are elided from the state.
* A message's `id` and `timestamp` fields never influence control flow in
  the source (ids are only used as React keys and to finalise the typing
  animation, which the flattening already accounts for), so they are
  dropped from the embedded `Message`.
* The "generating" placeholder message of `generatePrompt` is appended and
  then removed inside the same flattened operation, so it does not appear.
* `Math.floor(Math.random() * list.length)` is modelled by a draw
  parameter `r : Nat` reduced modulo the list length: the source's draw is
  a uniformly distributed index into the list.
-/

namespace PromptDiy

/-- Message senders, from the `MessageSender` union type of ChatUI.tsx. -/
inductive Sender where
  | user
  | system
  | attachment
deriving DecidableEq, Repr

/-- Prompt tiers, from the `promptLevel` union `quick | deepDive | crackedUp`
of ChatUI.tsx. -/
inductive PromptLevel where
  | quick
  | deepDive
  | crackedUp
deriving DecidableEq, Repr

/-- A chat message (ChatUI.tsx `Message`), with the control-flow-irrelevant
`id` and `timestamp` fields dropped. -/
structure Message where
  text : String
  sender : Sender
  promptLevel : Option PromptLevel := none
deriving DecidableEq, Repr

/-- ChatUI.tsx `PromptAttachment`. -/
structure PromptAttachment where
  text : String
  level : PromptLevel
  refreshCount : Nat
deriving DecidableEq, Repr

-- Constants of ChatUI.tsx (lines 10-13).
def MAX_REFRESHES : Nat := 3
def TIER1_RESPONSES : Nat := 3
def TIER2_RESPONSES : Nat := 5
def TIER3_RESPONSES : Nat := 7

/-- ChatUI.tsx `contextQuestions` (quick band). -/
def contextQuestions : List String :=
  ["Cool, let\x27s crack this open! What\x27s the main thing you\x27re trying to do?",
   "Nice! Any specific tone or style you\x27re aiming for?",
   "Got it. Who\x27s the target audience for this?"]

/-- ChatUI.tsx `deepDiveQuestions`. -/
def deepDiveQuestions : List String :=
  ["Let\x27s explore further. What challenges have you faced when working with this topic before?",
   "Interesting perspective. What would make this prompt truly valuable for you?"]

/-- ChatUI.tsx `crackedUpQuestions`. -/
def crackedUpQuestions : List String :=
  ["For our most advanced prompt, what unconventional angles would you like to explore?",
   "Let\x27s break boundaries - what\x27s one assumption about this topic you\x27d like to challenge?"]

/-- The tier policy's decision for one interaction count. -/
inductive Action where
  | askQuestion (q : String)
  | generate (level : PromptLevel)
  | wait
deriving DecidableEq, Repr

/-- The effect's final gate on a looked-up question: a JS array read out of
bounds yields `undefined` and the empty string is falsy, and the source only
emits the question under `if (shouldShowNextQuestion && nextQuestion)`, so a
missing or empty question degrades to no message at all (`wait`). -/
def askOr : Option String → Action
  | some q => if q = "" then Action.wait else Action.askQuestion q
  | none => Action.wait

/-- The branch chain of the tier-policy effect (ChatUI.tsx lines 168-189),
without the effect's outer count guard, over arbitrary question lists
(the source reads the module-level arrays). -/
def nextActionInnerWith (ctx dd cu : List String) (c : Nat) : Action :=
  if c < TIER1_RESPONSES then
    askOr (ctx.get? (c - 1))
  else if c = TIER1_RESPONSES then
    Action.generate PromptLevel.quick
  else if c < TIER2_RESPONSES then
    askOr (dd.get? (c - TIER1_RESPONSES - 1))
  else if c = TIER2_RESPONSES then
    Action.generate PromptLevel.deepDive
  else if c < TIER3_RESPONSES then
    askOr (cu.get? (c - TIER2_RESPONSES - 1))
  else if c = TIER3_RESPONSES then
    Action.generate PromptLevel.crackedUp
  else
    Action.wait

/-- The tier-policy effect (ChatUI.tsx lines 155-198): the branch chain is
only entered under `userResponseCount > 0 && userResponseCount < TIER3_RESPONSES`. -/
def nextActionWith (ctx dd cu : List String) (c : Nat) : Action :=
  if 0 < c ∧ c < TIER3_RESPONSES then nextActionInnerWith ctx dd cu c
  else Action.wait

/-- The tier policy on the source's actual question arrays. -/
def nextAction (c : Nat) : Action :=
  nextActionWith contextQuestions deepDiveQuestions crackedUpQuestions c

theorem nextAction_of_ge (c : Nat) (h : TIER3_RESPONSES ≤ c) :
    nextAction c = Action.wait := by
  unfold nextAction nextActionWith
  rw [if_neg]
  intro hc
  exact absurd hc.2 (not_lt.mpr h)

/-- C1: For every pair of mode and interactionCount, the tier policy step is
total: it yields exactly one of askQuestion, generate, or wait (the three
constructors of `Action`), never throws, and never reads past the end of any
canned-question array (contextQuestions has 3 entries, deepDiveQuestions and
crackedUpQuestions have 2 each; every question the policy emits is an element
of one of the three arrays); whenever the computed question index would
exceed the band's list, the result is wait rather than an out-of-bounds
access (last three conjuncts, for arbitrary question lists).  The policy
reads only the interaction count, never the mode, so the quantification over
modes is implicit. -/
theorem c1_policy_total_and_safe :
    contextQuestions.length = 3 ∧
    deepDiveQuestions.length = 2 ∧
    crackedUpQuestions.length = 2 ∧
    (∀ c : Nat,
      nextAction c = Action.wait ∨
      (∃ lvl, nextAction c = Action.generate lvl) ∨
      (∃ q, nextAction c = Action.askQuestion q ∧
        (q ∈ contextQuestions ∨ q ∈ deepDiveQuestions ∨ q ∈ crackedUpQuestions))) ∧
    (∀ (ctx dd cu : List String) (c : Nat), 0 < c → c < TIER1_RESPONSES →
      ctx.length ≤ c - 1 → nextActionWith ctx dd cu c = Action.wait) ∧
    (∀ (ctx dd cu : List String) (c : Nat), TIER1_RESPONSES < c → c < TIER2_RESPONSES →
      dd.length ≤ c - TIER1_RESPONSES - 1 → nextActionWith ctx dd cu c = Action.wait) ∧
    (∀ (ctx dd cu : List String) (c : Nat), TIER2_RESPONSES < c → c < TIER3_RESPONSES →
      cu.length ≤ c - TIER2_RESPONSES - 1 → nextActionWith ctx dd cu c = Action.wait) := by
  refine ⟨rfl, rfl, rfl, ?_, ?_, ?_, ?_⟩
  · intro c
    by_cases h : 0 < c ∧ c < TIER3_RESPONSES
    · have h1 : 0 < c := h.1
      have h2 : c < 7 := h.2
      interval_cases c
      · exact Or.inr (Or.inr ⟨_, rfl, by decide⟩)
      · exact Or.inr (Or.inr ⟨_, rfl, by decide⟩)
      · exact Or.inr (Or.inl ⟨PromptLevel.quick, rfl⟩)
      · exact Or.inr (Or.inr ⟨_, rfl, by decide⟩)
      · exact Or.inr (Or.inl ⟨PromptLevel.deepDive, rfl⟩)
      · exact Or.inr (Or.inr ⟨_, rfl, by decide⟩)
    · left
      unfold nextAction nextActionWith
      exact if_neg h
  · intro ctx dd cu c h0 h3 hlen
    have h3' : c < 3 := h3
    have hn : ctx.get? (c - 1) = none := List.get?_eq_none.mpr hlen
    unfold nextActionWith nextActionInnerWith
    rw [if_pos ⟨h0, by show c < 7; omega⟩, if_pos h3, hn]
    rfl
  · intro ctx dd cu c h3 h5 hlen
    have h3' : (3 : Nat) < c := h3
    have h5' : c < 5 := h5
    have hn : dd.get? (c - TIER1_RESPONSES - 1) = none := List.get?_eq_none.mpr hlen
    unfold nextActionWith nextActionInnerWith
    rw [if_pos ⟨by omega, by show c < 7; omega⟩, if_neg (by show ¬ c < 3; omega),
      if_neg (by show ¬ c = 3; omega), if_pos h5, hn]
    rfl
  · intro ctx dd cu c h5 h7 hlen
    have h5' : (5 : Nat) < c := h5
    have h7' : c < 7 := h7
    have hn : cu.get? (c - TIER2_RESPONSES - 1) = none := List.get?_eq_none.mpr hlen
    unfold nextActionWith nextActionInnerWith
    rw [if_pos ⟨by omega, h7⟩, if_neg (by show ¬ c < 3; omega),
      if_neg (by show ¬ c = 3; omega), if_neg (by show ¬ c < 5; omega),
      if_neg (by show ¬ c = 5; omega), if_pos h7, hn]
    rfl

/-- Witness for C1: the defensive conjuncts instantiated at a concrete
out-of-range input — with an empty context-question list and count 1 the
policy answers wait instead of indexing out of bounds. -/
theorem c1_policy_total_and_safe_witness :
    nextActionWith [] deepDiveQuestions crackedUpQuestions 1 = Action.wait :=
  c1_policy_total_and_safe.2.2.2.2.1 [] deepDiveQuestions crackedUpQuestions 1
    (by decide) (by decide) (by decide)

/-- C2 (code_bug evidence): the policy generates tier 1 at count
TIER1_RESPONSES = 3 and tier 2 at TIER2_RESPONSES = 5, and between thresholds
asks the band's question at index count - previousThreshold - 1; but at
count TIER3_RESPONSES = 7 the effect's outer guard
`userResponseCount < TIER3_RESPONSES` excludes the count, so the source's own
`userResponseCount === TIER3_RESPONSES` branch is dead code: the policy
yields wait at 7 and the crackedUp tier is never generated at any count,
although the unguarded branch chain would generate it at 7. -/
theorem c2_tier3_generation_unreachable :
    nextAction TIER1_RESPONSES = Action.generate PromptLevel.quick ∧
    nextAction TIER2_RESPONSES = Action.generate PromptLevel.deepDive ∧
    nextAction 1 = Action.askQuestion (contextQuestions.getD 0 "") ∧
    nextAction 4 = Action.askQuestion (deepDiveQuestions.getD 0 "") ∧
    nextAction 6 = Action.askQuestion (crackedUpQuestions.getD 0 "") ∧
    nextAction TIER3_RESPONSES = Action.wait ∧
    nextActionInnerWith contextQuestions deepDiveQuestions crackedUpQuestions
      TIER3_RESPONSES = Action.generate PromptLevel.crackedUp ∧
    (∀ c : Nat, nextAction c ≠ Action.generate PromptLevel.crackedUp) := by
  refine ⟨rfl, rfl, rfl, rfl, rfl, rfl, rfl, ?_⟩
  intro c h
  by_cases hc : 0 < c ∧ c < TIER3_RESPONSES
  · have h1 : 0 < c := hc.1
    have h2 : c < 7 := hc.2
    interval_cases c <;> exact absurd h (by decide)
  · rw [show nextAction c = Action.wait from by unfold nextAction nextActionWith; exact if_neg hc] at h
    exact absurd h (by decide)

/-- First quick template of ChatUI.tsx `getPrompt` (the canonical one). -/
def quickPrompt1 (t : String) : String :=
  "Here\x27s a straightforward prompt about " ++ t ++
  ":\n\nCreate a detailed guide that explains " ++ t ++
  " with clear examples and step-by-step instructions. Include practical tips for beginners and address common misconceptions."

/-- Second quick template of ChatUI.tsx `getPrompt`. -/
def quickPrompt2 (t : String) : String :=
  "Quick Prompt for " ++ t ++
  ":\n\nDevelop a comprehensive overview of " ++ t ++
  " that highlights key concepts, historical context, and modern applications. Include specific examples and resources for further learning."

/-- Third quick template of ChatUI.tsx `getPrompt`. -/
def quickPrompt3 (t : String) : String :=
  "Your Quick Prompt is ready:\n\nCraft an informative piece about " ++ t ++
  " that balances technical accuracy with accessibility. Structure it with a clear introduction, main sections covering key aspects, and a conclusion with actionable takeaways."

/-- The `quickPrompts` array local to ChatUI.tsx `getPrompt`. -/
def quickPromptsList (t : String) : List String :=
  [quickPrompt1 t, quickPrompt2 t, quickPrompt3 t]

/-- The single deepDive template of ChatUI.tsx `getPrompt`. -/
def deepDivePrompt (t : String) : String :=
  "Deep Dive Prompt for " ++ t ++
  ":\n\nCreate an in-depth analysis of " ++ t ++
  " that explores nuanced perspectives and interconnected themes. Incorporate relevant theoretical frameworks, challenge conventional wisdom, and propose innovative approaches. Address both practical applications and philosophical implications, while considering diverse viewpoints and potential criticisms.\n\nStructure your response with:\n- A compelling introduction that establishes the significance of " ++ t ++
  "\n- Clearly defined sections that progressively build understanding\n- Evidence-based arguments supported by examples and case studies\n- A conclusion that synthesizes insights and invites further exploration"

/-- The single crackedUp template of ChatUI.tsx `getPrompt`. -/
def crackedUpPrompt (t : String) : String :=
  "Cracked AF Prompt for " ++ t ++
  ":\n\nDevelop a boundary-pushing exploration of " ++ t ++
  " that transcends conventional thinking and reveals unexpected connections. Interrogate fundamental assumptions, synthesize seemingly contradictory perspectives, and generate transformative insights.\n\nYour response should:\n- Reframe " ++ t ++
  " through multiple intellectual traditions and disciplines\n- Identify hidden patterns and counterintuitive dynamics\n- Propose paradigm-shifting frameworks that generate new possibilities\n- Balance intellectual rigor with creative speculation\n- Anticipate future developments and emerging challenges\n\nIncorporate relevant tensions between theory and practice, individual and collective perspectives, historical precedents and future possibilities. The goal is not merely to explain " ++ t ++
  ", but to fundamentally reimagine it."

/-- ChatUI.tsx `getPrompt`: the texts of the user messages, in log order. -/
def userMessageTexts (messages : List Message) : List String :=
  (messages.filter fun m => decide (m.sender = Sender.user)).map Message.text

/-- ChatUI.tsx `getPrompt` line 475: `userMessages[0] || 'your topic'` —
the first user message text, falling back to the literal when there is no
user message or (JS falsiness of the empty string) its text is empty. -/
def userTopic (messages : List Message) : String :=
  match userMessageTexts messages with
  | [] => "your topic"
  | t :: _ => if t = "" then "your topic" else t

/-- ChatUI.tsx `getPrompt(level, isRefresh)`.  The draw
`Math.floor(Math.random() * quickPrompts.length)` is modelled by the
parameter `r` reduced modulo the list length. -/
def getPrompt (messages : List Message) (level : PromptLevel) (isRefresh : Bool)
    (r : Nat) : String :=
  let topic := userTopic messages
  match level with
  | PromptLevel.quick =>
    if isRefresh then
      (quickPromptsList topic).getD (r % (quickPromptsList topic).length) ""
    else
      (quickPromptsList topic).getD 0 ""
  | PromptLevel.deepDive => deepDivePrompt topic
  | PromptLevel.crackedUp => crackedUpPrompt topic

def mkSystem (t : String) : Message := ⟨t, Sender.system, none⟩

def mkUser (t : String) : Message := ⟨t, Sender.user, none⟩

def mkAttachment (t : String) (lvl : PromptLevel) : Message :=
  ⟨t, Sender.attachment, some lvl⟩

/-- The seed system message of ChatUI.tsx (initial `messages` state and the
Start Over reset). -/
def seedText : String :=
  "Hi there! I\x27ll help you create the perfect prompt. What topic are you interested in?"

/-- The state of the ChatUI widget: exactly the `useState` cells that the
conversation controller reads or writes (transient loading/typing flags
elided, see the module docstring). -/
structure ChatState where
  messages : List Message
  userResponseCount : Nat
  currentPromptTier : Option PromptLevel
  currentAttachment : Option PromptAttachment
  refreshCount : Nat
deriving DecidableEq, Repr

def initialChatState : ChatState :=
  { messages := [mkSystem seedText]
    userResponseCount := 0
    currentPromptTier := none
    currentAttachment := none
    refreshCount := 0 }

/-- JavaScript `String.prototype.trim`: drop whitespace from both ends
(embedded directly over the character list so that it evaluates). -/
def jsTrim (s : String) : String :=
  String.mk (((s.data.dropWhile Char.isWhitespace).reverse.dropWhile
    Char.isWhitespace).reverse)

/-- ChatUI.tsx `handleSendMessage` (lines 286-328): rejects empty or
whitespace-only input (`!inputValue.trim()`), otherwise appends the trimmed
text as a user message and increments `userResponseCount`.  Note: no length
check happens here. -/
def handleSendMessage (s : ChatState) (input : String) : ChatState :=
  if jsTrim input = "" then s
  else
    { s with
      messages := s.messages ++ [mkUser (jsTrim input)]
      userResponseCount := s.userResponseCount + 1 }

/-- The send button's enabled condition (ChatUI.tsx line 729, negation of
`disabled={!inputValue.trim() || inputValue.length > 200 || isLoading}`),
in the quiescent state where `isLoading` is false.  The Enter-key path
(`handleKeyPress`) calls `handleSendMessage` without this check. -/
def sendButtonEnabled (input : String) : Bool :=
  !(decide (jsTrim input = "")) && !(decide (200 < input.length))

/-- The completion message of ChatUI.tsx `generatePrompt`. -/
def completionMessage : PromptLevel → String
  | PromptLevel.quick =>
    "Here\x27s your Quick Prompt! Copy it or let\x27s refine it further!"
  | PromptLevel.deepDive =>
    "Here\x27s your Deep Dive Prompt! Getting more detailed now. Keep chatting for our most advanced prompt."
  | PromptLevel.crackedUp =>
    "Here\x27s your Cracked AF Prompt! This is our most advanced prompt based on our full conversation."

/-- ChatUI.tsx `generatePrompt(level)` with its timers flattened: sets the
tier, computes the prompt (non-refresh), installs it as the current
attachment, resets the refresh counter, and appends the completion system
message followed by the attachment message.  The transient "generating"
placeholder message is appended and removed inside the same flattened
operation and so does not appear. -/
def generatePromptStep (level : PromptLevel) (s : ChatState) : ChatState :=
  let promptText := getPrompt s.messages level false 0
  { s with
    currentPromptTier := some level
    currentAttachment := some ⟨promptText, level, 0⟩
    refreshCount := 0
    messages := s.messages ++
      [mkSystem (completionMessage level), mkAttachment promptText level] }

/-- The tier-policy effect's reaction to the updated count (ChatUI.tsx
lines 155-198), run right after a user message lands. -/
def applyPolicy (s : ChatState) : ChatState :=
  match nextAction s.userResponseCount with
  | Action.askQuestion q => { s with messages := s.messages ++ [mkSystem q] }
  | Action.generate lvl => generatePromptStep lvl s
  | Action.wait => s

/-- One user submission: `handleSendMessage` followed by the messages
effect (which runs because the last message is now from the user and the
widget is quiescent). -/
def sendStep (s : ChatState) (input : String) : ChatState :=
  if jsTrim input = "" then s else applyPolicy (handleSendMessage s input)

def refreshingText : String := "Refreshing your prompt..."

/-- ChatUI.tsx `handleRefreshPrompt` (lines 331-369) with its timer
flattened: no-op without a current attachment or at the refresh cap;
otherwise increments `refreshCount`, appends the "Refreshing your
prompt..." system message, regenerates the prompt for the attachment's
level with `isRefresh = true`, appends it as a new attachment message and
updates only the text of the current-attachment record. -/
def handleRefreshPrompt (s : ChatState) (r : Nat) : ChatState :=
  match s.currentAttachment with
  | none => s
  | some a =>
    if MAX_REFRESHES ≤ s.refreshCount then s
    else
      let msgs1 := s.messages ++ [mkSystem refreshingText]
      let t := getPrompt msgs1 a.level true r
      { s with
        refreshCount := s.refreshCount + 1
        messages := msgs1 ++ [mkAttachment t a.level]
        currentAttachment := some { a with text := t } }

/-- The Start Over button on a crackedUp attachment (ChatUI.tsx lines
656-671): reset to the seed message with all counters and the attachment
cleared — exactly the initial state. -/
def startOverStep (_s : ChatState) : ChatState := initialChatState

/-- The operations a user can drive the ChatUI widget with. -/
inductive Op where
  | send (input : String)
  | refresh (r : Nat)
  | startOver
deriving DecidableEq, Repr

def step (s : ChatState) : Op → ChatState
  | Op.send input => sendStep s input
  | Op.refresh r => handleRefreshPrompt s r
  | Op.startOver => startOverStep s

def runOps (s : ChatState) (ops : List Op) : ChatState := ops.foldl step s

/-- The states the widget can actually be in. -/
inductive Reachable : ChatState → Prop where
  | init : Reachable initialChatState
  | next (s : ChatState) (op : Op) : Reachable s → Reachable (step s op)

/-- A 201-character input: one character over the send button's limit. -/
def longText : String := String.mk (List.replicate 201 'a')

set_option maxRecDepth 8000 in
/-- C3 (code_bug evidence): `handleSendMessage` rejects empty and
whitespace-only input unchanged, and the send button's own condition
disables submission of a 201-character text — but the Enter-key path calls
`handleSendMessage` directly, which has no length check: the over-long text
is appended as a user message and the counter incremented, contradicting
both the claim and the button's own 200-character limit. -/
theorem c3_length_limit_bypassed :
    handleSendMessage initialChatState "" = initialChatState ∧
    handleSendMessage initialChatState "   " = initialChatState ∧
    longText.length = 201 ∧
    sendButtonEnabled longText = false ∧
    (handleSendMessage initialChatState longText).userResponseCount = 1 ∧
    (handleSendMessage initialChatState longText).messages
      = initialChatState.messages ++ [mkUser longText] := by
  refine ⟨?_, ?_, ?_, ?_, ?_, ?_⟩ <;> decide

theorem getPrompt_quick_refresh (msgs : List Message) (r : Nat) :
    getPrompt msgs PromptLevel.quick true r
      = (quickPromptsList (userTopic msgs)).getD (r % 3) "" := rfl

set_option maxRecDepth 8000 in
/-- C6: generation with `isRefresh = false` is deterministic — for the
quick tier it always returns the first (canonical) template, and the
deepDive and crackedUp tiers each have a single template returned
regardless of the flag or the draw; with `isRefresh = true` the quick
prompt is exactly the variant indexed by the uniform draw (so the selection
is uniform over the three variants), every variant is attainable, and a
fresh draw may repeat the previous selection.  Finally, Scenario B: three
submissions from the fresh state produce the canonical quick attachment
with the first message as topic. -/
theorem c6_template_selection :
    (∀ (msgs : List Message) (r r' : Nat),
      getPrompt msgs PromptLevel.quick false r = getPrompt msgs PromptLevel.quick false r' ∧
      getPrompt msgs PromptLevel.quick false r = quickPrompt1 (userTopic msgs) ∧
      getPrompt msgs PromptLevel.deepDive true r = deepDivePrompt (userTopic msgs) ∧
      getPrompt msgs PromptLevel.deepDive false r = deepDivePrompt (userTopic msgs) ∧
      getPrompt msgs PromptLevel.crackedUp true r = crackedUpPrompt (userTopic msgs) ∧
      getPrompt msgs PromptLevel.crackedUp false r = crackedUpPrompt (userTopic msgs)) ∧
    (∀ (msgs : List Message) (d : Fin 3),
      getPrompt msgs PromptLevel.quick true d.val
        = (quickPromptsList (userTopic msgs)).getD d.val "") ∧
    (∀ (msgs : List Message) (d : Fin 3), ∃ r : Nat,
      getPrompt msgs PromptLevel.quick true r
        = (quickPromptsList (userTopic msgs)).getD d.val "") ∧
    (∀ (msgs : List Message) (r : Nat), ∃ r' : Nat, r' ≠ r ∧
      getPrompt msgs PromptLevel.quick true r'
        = getPrompt msgs PromptLevel.quick true r) ∧
    (runOps initialChatState
        [Op.send "ai", Op.send "casual", Op.send "developers"]).currentAttachment
      = some ⟨quickPrompt1 "ai", PromptLevel.quick, 0⟩ := by
  refine ⟨fun msgs r r' => ⟨rfl, rfl, rfl, rfl, rfl, rfl⟩, ?_, ?_, ?_, ?_⟩
  · intro msgs d
    rw [getPrompt_quick_refresh, Nat.mod_eq_of_lt d.isLt]
  · intro msgs d
    exact ⟨d.val, by rw [getPrompt_quick_refresh, Nat.mod_eq_of_lt d.isLt]⟩
  · intro msgs r
    refine ⟨r + 3, by omega, ?_⟩
    rw [getPrompt_quick_refresh, getPrompt_quick_refresh, Nat.add_mod_right]
  · decide

theorem userMessageTexts_append (l1 l2 : List Message) :
    userMessageTexts (l1 ++ l2) = userMessageTexts l1 ++ userMessageTexts l2 := by
  simp [userMessageTexts, List.filter_append]

/-- A log whose only entry is a user message with empty text. -/
def emptyUserLog : List Message := [mkUser ""]

/-- C10 counterexample: a log containing a user message whose text is the
empty string.  The claim says the substituted topic is exactly the text of
the first user message, i.e. the empty string — but the source's
`userMessages[0] || 'your topic'` treats the empty string as falsy and
substitutes the literal fallback instead. -/
theorem c10_counterexample :
    userMessageTexts emptyUserLog = [""] ∧
    userTopic emptyUserLog = "your topic" ∧
    getPrompt emptyUserLog PromptLevel.deepDive false 0 = deepDivePrompt "your topic" ∧
    ("your topic" : String) ≠ "" := by
  refine ⟨rfl, rfl, rfl, by decide⟩

/-- C10 as amended: the substituted topic is the text of the first user
message when that text is non-empty; it is the literal "your topic" when
the log has no user message or the first user message's text is empty (JS
`||` falsiness); user messages appended after an existing one never change
the topic; and every tier's generated prompt substitutes exactly this
topic (the quick prompt is always one of the three templates filled with
it). -/
theorem c10_topic_amended :
    (∀ (msgs : List Message) (t : String) (rest : List String),
      userMessageTexts msgs = t :: rest → t ≠ "" → userTopic msgs = t) ∧
    (∀ msgs : List Message, userMessageTexts msgs = [] → userTopic msgs = "your topic") ∧
    (∀ (msgs : List Message) (m : Message), userMessageTexts msgs ≠ [] →
      userTopic (msgs ++ [m]) = userTopic msgs) ∧
    (∀ (msgs : List Message) (b : Bool) (r : Nat),
      getPrompt msgs PromptLevel.deepDive b r = deepDivePrompt (userTopic msgs) ∧
      getPrompt msgs PromptLevel.crackedUp b r = crackedUpPrompt (userTopic msgs) ∧
      getPrompt msgs PromptLevel.quick b r ∈ quickPromptsList (userTopic msgs)) := by
  refine ⟨?_, ?_, ?_, ?_⟩
  · intro msgs t rest h ht
    unfold userTopic
    rw [h]
    exact if_neg ht
  · intro msgs h
    unfold userTopic
    rw [h]
  · intro msgs m h
    rcases hh : userMessageTexts msgs with _ | ⟨t, rest⟩
    · exact absurd hh h
    · have happ : userMessageTexts (msgs ++ [m])
          = t :: (rest ++ userMessageTexts [m]) := by
        rw [userMessageTexts_append, hh]
        rfl
      unfold userTopic
      rw [happ, hh]
  · intro msgs b r
    refine ⟨by cases b <;> rfl, by cases b <;> rfl, ?_⟩
    cases b
    · exact List.mem_cons.mpr (Or.inl rfl)
    · rw [getPrompt_quick_refresh]
      have h3 : r % 3 = 0 ∨ r % 3 = 1 ∨ r % 3 = 2 := by omega
      rcases h3 with h | h | h <;> rw [h] <;> simp [quickPromptsList]

/-- Witness for C10's amended theorem: with a one-message log carrying the
non-empty text "ai" the topic is "ai". -/
theorem c10_topic_amended_witness : userTopic [mkUser "ai"] = "ai" :=
  c10_topic_amended.1 [mkUser "ai"] "ai" [] rfl (by decide)

theorem refresh_noop_none (s : ChatState) (r : Nat)
    (h : s.currentAttachment = none) : handleRefreshPrompt s r = s := by
  unfold handleRefreshPrompt
  rw [h]

theorem refresh_noop_cap (s : ChatState) (r : Nat)
    (h : MAX_REFRESHES ≤ s.refreshCount) : handleRefreshPrompt s r = s := by
  unfold handleRefreshPrompt
  split
  · rfl
  · rw [if_pos h]

theorem refresh_success (s : ChatState) (a : PromptAttachment) (r : Nat)
    (hA : s.currentAttachment = some a) (hlt : s.refreshCount < MAX_REFRESHES) :
    handleRefreshPrompt s r =
      { s with
        refreshCount := s.refreshCount + 1
        messages := (s.messages ++ [mkSystem refreshingText]) ++
          [mkAttachment
            (getPrompt (s.messages ++ [mkSystem refreshingText]) a.level true r)
            a.level]
        currentAttachment := some { a with
          text := getPrompt (s.messages ++ [mkSystem refreshingText]) a.level true r } } := by
  unfold handleRefreshPrompt
  split
  · rename_i heq
    rw [hA] at heq
    exact Option.noConfusion heq
  · rename_i a' heq
    rw [hA] at heq
    injection heq with heq
    subst heq
    rw [if_neg (not_le.mpr hlt)]

theorem handleRefreshPrompt_fields (s : ChatState) (r : Nat) :
    (handleRefreshPrompt s r).userResponseCount = s.userResponseCount ∧
    (handleRefreshPrompt s r).currentPromptTier = s.currentPromptTier := by
  unfold handleRefreshPrompt
  split
  · exact ⟨rfl, rfl⟩
  · split
    · exact ⟨rfl, rfl⟩
    · exact ⟨rfl, rfl⟩

theorem refresh_refreshCount_le (s : ChatState) (r : Nat)
    (h : s.refreshCount ≤ MAX_REFRESHES) :
    (handleRefreshPrompt s r).refreshCount ≤ MAX_REFRESHES := by
  unfold handleRefreshPrompt
  split
  · exact h
  · split
    · exact h
    · rename_i hc
      have hc' : ¬ (3 ≤ s.refreshCount) := hc
      show s.refreshCount + 1 ≤ 3
      omega

/-- The tier that `applyPolicy` leaves in place, as a named function so the
same term appears in every lemma about it. -/
def policyTier (c : Nat) (t : Option PromptLevel) : Option PromptLevel :=
  match nextAction c with
  | Action.generate lvl => some lvl
  | _ => t

theorem applyPolicy_fields (s : ChatState) :
    (applyPolicy s).userResponseCount = s.userResponseCount ∧
    (applyPolicy s).currentPromptTier
      = policyTier s.userResponseCount s.currentPromptTier := by
  unfold applyPolicy policyTier
  cases hna : nextAction s.userResponseCount
  · exact ⟨rfl, rfl⟩
  · exact ⟨rfl, rfl⟩
  · exact ⟨rfl, rfl⟩

theorem applyPolicy_refreshCount_le (s : ChatState)
    (h : s.refreshCount ≤ MAX_REFRESHES) :
    (applyPolicy s).refreshCount ≤ MAX_REFRESHES := by
  unfold applyPolicy
  cases hna : nextAction s.userResponseCount
  · exact h
  · exact Nat.zero_le _
  · exact h

theorem handleSendMessage_fields (s : ChatState) (input : String)
    (h : ¬ jsTrim input = "") :
    (handleSendMessage s input).userResponseCount = s.userResponseCount + 1 ∧
    (handleSendMessage s input).currentPromptTier = s.currentPromptTier ∧
    (handleSendMessage s input).refreshCount = s.refreshCount := by
  unfold handleSendMessage
  rw [if_neg h]
  exact ⟨rfl, rfl, rfl⟩

/-- The tier the widget shows once the count has reached a threshold. -/
def tierFor (c : Nat) : Option PromptLevel :=
  if TIER2_RESPONSES ≤ c then some PromptLevel.deepDive
  else if TIER1_RESPONSES ≤ c then some PromptLevel.quick
  else none

theorem tierFor_step (c : Nat) :
    policyTier (c + 1) (tierFor c) = tierFor (c + 1) := by
  by_cases h : c + 1 < 7
  · have hc : c < 6 := by omega
    interval_cases c <;> decide
  · unfold policyTier
    rw [nextAction_of_ge (c + 1) (by show 7 ≤ c + 1; omega)]
    show tierFor c = tierFor (c + 1)
    unfold tierFor
    rw [if_pos (by show (5 : Nat) ≤ c; omega), if_pos (by show (5 : Nat) ≤ c + 1; omega)]

/-- The inductive invariant of the widget: the displayed tier is determined
by the interaction count, and the refresh counter never passes the cap. -/
def Inv (s : ChatState) : Prop :=
  s.currentPromptTier = tierFor s.userResponseCount ∧
  s.refreshCount ≤ MAX_REFRESHES

theorem inv_initial : Inv initialChatState := ⟨by decide, by decide⟩

theorem inv_step (s : ChatState) (op : Op) (h : Inv s) : Inv (step s op) := by
  obtain ⟨htier, hrc⟩ := h
  cases op with
  | startOver => exact inv_initial
  | refresh r =>
    show Inv (handleRefreshPrompt s r)
    refine ⟨?_, refresh_refreshCount_le s r hrc⟩
    rw [(handleRefreshPrompt_fields s r).2, (handleRefreshPrompt_fields s r).1]
    exact htier
  | send input =>
    show Inv (sendStep s input)
    by_cases hin : jsTrim input = ""
    · unfold sendStep
      rw [if_pos hin]
      exact ⟨htier, hrc⟩
    · unfold sendStep
      rw [if_neg hin]
      have hf := handleSendMessage_fields s input hin
      constructor
      · rw [(applyPolicy_fields _).2, (applyPolicy_fields _).1, hf.1, hf.2.1, htier]
        exact tierFor_step s.userResponseCount
      · exact applyPolicy_refreshCount_le _ (by rw [hf.2.2]; exact hrc)

theorem reachable_inv (s : ChatState) (h : Reachable s) : Inv s := by
  induction h with
  | init => exact inv_initial
  | next s op _ ih => exact inv_step s op ih

theorem refresh_success_proj (s : ChatState) (a : PromptAttachment) (r : Nat)
    (hA : s.currentAttachment = some a) (hlt : s.refreshCount < MAX_REFRESHES) :
    (handleRefreshPrompt s r).refreshCount = s.refreshCount + 1 ∧
    ∃ t : String,
      (handleRefreshPrompt s r).messages
        = s.messages ++ [mkSystem refreshingText, mkAttachment t a.level] ∧
      (handleRefreshPrompt s r).currentAttachment = some { a with text := t } := by
  rw [refresh_success s a r hA hlt]
  exact ⟨rfl, ⟨_, by rw [List.append_assoc]; rfl, rfl⟩⟩

/-- C4: from any state holding a current attachment with refreshCount = 0,
three refreshes in a row succeed — refreshCount takes the values 1, 2, 3
and each success appends a fresh attachment message (after the "Refreshing
your prompt..." system message) — while the fourth call is a no-op that
changes no state; and in every reachable state refreshCount never exceeds
MAX_REFRESHES. -/
theorem c4_refresh_limit :
    (∀ (s : ChatState) (a : PromptAttachment) (r1 r2 r3 r4 : Nat),
      s.currentAttachment = some a → s.refreshCount = 0 →
      ∃ s1 s2 s3 : ChatState,
        handleRefreshPrompt s r1 = s1 ∧
        handleRefreshPrompt s1 r2 = s2 ∧
        handleRefreshPrompt s2 r3 = s3 ∧
        s1.refreshCount = 1 ∧ s2.refreshCount = 2 ∧ s3.refreshCount = 3 ∧
        (∃ t1, s1.messages
          = s.messages ++ [mkSystem refreshingText, mkAttachment t1 a.level]) ∧
        (∃ t2, s2.messages
          = s1.messages ++ [mkSystem refreshingText, mkAttachment t2 a.level]) ∧
        (∃ t3, s3.messages
          = s2.messages ++ [mkSystem refreshingText, mkAttachment t3 a.level]) ∧
        handleRefreshPrompt s3 r4 = s3) ∧
    (∀ s : ChatState, Reachable s → s.refreshCount ≤ MAX_REFRESHES) := by
  constructor
  · intro s a r1 r2 r3 r4 hA h0
    have hlt1 : s.refreshCount < MAX_REFRESHES := by rw [h0]; decide
    obtain ⟨hc1, t1, hm1, ha1⟩ := refresh_success_proj s a r1 hA hlt1
    have hr1 : (handleRefreshPrompt s r1).refreshCount = 1 := by rw [hc1, h0]
    obtain ⟨hc2, t2, hm2, ha2⟩ := refresh_success_proj _ _ r2 ha1 (by rw [hr1]; decide)
    have hr2 : (handleRefreshPrompt (handleRefreshPrompt s r1) r2).refreshCount = 2 := by
      rw [hc2, hr1]
    obtain ⟨hc3, t3, hm3, ha3⟩ := refresh_success_proj _ _ r3 ha2 (by rw [hr2]; decide)
    have hr3 : (handleRefreshPrompt (handleRefreshPrompt (handleRefreshPrompt s r1) r2)
        r3).refreshCount = 3 := by
      rw [hc3, hr2]
    exact ⟨_, _, _, rfl, rfl, rfl, hr1, hr2, hr3, ⟨t1, hm1⟩, ⟨t2, hm2⟩, ⟨t3, hm3⟩,
      refresh_noop_cap _ r4 (by rw [hr3]; decide)⟩
  · exact fun s hr => (reachable_inv s hr).2

/-- A concrete state with a current quick attachment and refreshCount 0. -/
def attA : PromptAttachment := ⟨"p", PromptLevel.quick, 0⟩

/-- A concrete state for instantiating C4: seed message, one user message,
one attachment message, current attachment `attA`. -/
def sA : ChatState :=
  { messages := [mkSystem seedText, mkUser "ai", mkAttachment "p" PromptLevel.quick]
    userResponseCount := 3
    currentPromptTier := some PromptLevel.quick
    currentAttachment := some attA
    refreshCount := 0 }

/-- Witness for C4: the theorem applied at the concrete state `sA` with all
four draws 0, and the invariant applied at the initial state. -/
theorem c4_refresh_limit_witness :
    (∃ s1 s2 s3 : ChatState,
      handleRefreshPrompt sA 0 = s1 ∧
      handleRefreshPrompt s1 0 = s2 ∧
      handleRefreshPrompt s2 0 = s3 ∧
      s1.refreshCount = 1 ∧ s2.refreshCount = 2 ∧ s3.refreshCount = 3 ∧
      (∃ t1, s1.messages
        = sA.messages ++ [mkSystem refreshingText, mkAttachment t1 attA.level]) ∧
      (∃ t2, s2.messages
        = s1.messages ++ [mkSystem refreshingText, mkAttachment t2 attA.level]) ∧
      (∃ t3, s3.messages
        = s2.messages ++ [mkSystem refreshingText, mkAttachment t3 attA.level]) ∧
      handleRefreshPrompt s3 0 = s3) ∧
    initialChatState.refreshCount ≤ MAX_REFRESHES :=
  ⟨c4_refresh_limit.1 sA attA 0 0 0 0 rfl rfl,
   c4_refresh_limit.2 initialChatState Reachable.init⟩

/-- The forward order on tiers: none before quick before deepDive before
crackedUp. -/
def tierRank : Option PromptLevel → Nat
  | none => 0
  | some PromptLevel.quick => 1
  | some PromptLevel.deepDive => 2
  | some PromptLevel.crackedUp => 3

theorem tierFor_rank_mono (c d : Nat) (h : c ≤ d) :
    tierRank (tierFor c) ≤ tierRank (tierFor d) := by
  unfold tierFor
  have h2c : TIER2_RESPONSES ≤ c ↔ 5 ≤ c := Iff.rfl
  have h1c : TIER1_RESPONSES ≤ c ↔ 3 ≤ c := Iff.rfl
  split_ifs with hA hB hC hD <;>
    first
      | decide
      | (exfalso
         have hA' := h2c.mp hA
         omega)
      | skip
  all_goals
    simp only [TIER2_RESPONSES, TIER1_RESPONSES] at *
  all_goals first | decide | (exfalso; omega)

/-- C7: within one conversation epoch (no Start Over reset), the current
tier only moves forward along none, quick, deepDive, crackedUp: no
non-reset operation ever lowers `currentPromptTier` from any reachable
state. -/
theorem c7_tier_monotone (s : ChatState) (op : Op) (hr : Reachable s)
    (hop : op ≠ Op.startOver) :
    tierRank s.currentPromptTier ≤ tierRank (step s op).currentPromptTier := by
  obtain ⟨htier, -⟩ := reachable_inv s hr
  cases op with
  | startOver => exact absurd rfl hop
  | refresh r =>
    show tierRank s.currentPromptTier
      ≤ tierRank (handleRefreshPrompt s r).currentPromptTier
    rw [(handleRefreshPrompt_fields s r).2]
  | send input =>
    show tierRank s.currentPromptTier ≤ tierRank (sendStep s input).currentPromptTier
    by_cases hin : jsTrim input = ""
    · unfold sendStep
      rw [if_pos hin]
    · unfold sendStep
      rw [if_neg hin]
      have hf := handleSendMessage_fields s input hin
      rw [(applyPolicy_fields _).2, hf.1, hf.2.1, htier,
        tierFor_step s.userResponseCount]
      exact tierFor_rank_mono _ _ (Nat.le_succ _)

/-- Witness for C7: the monotonicity theorem applied to the initial state
and a first submission. -/
theorem c7_tier_monotone_witness :
    tierRank initialChatState.currentPromptTier
      ≤ tierRank (step initialChatState (Op.send "ai")).currentPromptTier :=
  c7_tier_monotone initialChatState (Op.send "ai") Reachable.init (by decide)

namespace Index

/-- Index.tsx `Message`: only user and system senders occur. -/
structure Message where
  text : String
  sender : Sender
deriving DecidableEq, Repr

-- Constants of Index.tsx (lines 7-9); MAX_REFRESHES is the same value 3 as
-- in ChatUI.tsx and is shared.
def MAX_USER_MESSAGES : Nat := 3

/-- Index.tsx chat modes. -/
inductive ChatMode where
  | quick
  | creativeFlow
  | crackedAF
deriving DecidableEq, Repr

/-- The `quickPrompts` array of Index.tsx `generateQuickModePrompt`. -/
def quickPrompts : List String :=
  ["Write a prompt for a blog post about sustainable living practices that can be implemented in urban environments.",
   "Create a prompt for a social media campaign that raises awareness about mental health issues among young professionals.",
   "Develop a prompt for a podcast episode discussing the future of remote work and its impact on company culture.",
   "Design a prompt for an educational video explaining complex scientific concepts to elementary school students."]

/-- The `creativePrompts` array of Index.tsx `generateCreativeFlowPrompt`. -/
def creativePrompts : List String :=
  ["Fantasy story prompt: Create a world where humans can temporarily swap bodies with animals, exploring the ethical and social implications when a character discovers a black market for rare animal experiences.",
   "Mystery novel prompt: In a small coastal town, a series of impossible locked-room thefts occur only during full moons, with the stolen items always returning exactly one year later in pristine condition.",
   "Historical fiction prompt: Develop a narrative set during the Renaissance where an apprentice to a famous artist discovers their master is using forbidden alchemical techniques to create pigments that capture emotions.",
   "Adventure story prompt: Design a quest where the protagonist must navigate a series of increasingly challenging puzzles in an ancient temple, where each solution reveals a piece of their forgotten past."]

/-- The `crackedAFPrompts` array of Index.tsx `generateCrackedAFPrompt`. -/
def crackedAFPrompts : List String :=
  ["Sci-fi story prompt: Craft a vivid, sensory-rich narrative set on a sentient spaceship that has developed multiple personality disorder after centuries of isolation, incorporating themes of identity and consciousness as the ship\x27s new crew discovers its condition.",
   "Psychological thriller prompt: Develop an intricate story in a world where memories can be artificially implanted, following a memory artist who discovers their own past has been fabricated and must determine which of their memories are real while being pursued by unknown entities.",
   "Speculative fiction prompt: Create an evocative narrative in a society where emotions are traded as currency, exploring the consequences when a character develops a unique emotion that becomes highly valuable but threatens to destabilize the entire economic system.",
   "Dystopian prompt: Design a multi-layered story set in a future where dreams are monitored and regulated by the government, following a dream enforcement agent who begins experiencing unregistered dreams that reveal a conspiracy at the highest levels of power."]

def generateQuickModePrompt (r : Nat) : String :=
  quickPrompts.getD (r % quickPrompts.length) ""

def generateCreativeFlowPrompt (r : Nat) : String :=
  creativePrompts.getD (r % creativePrompts.length) ""

def generateCrackedAFPrompt (r : Nat) : String :=
  crackedAFPrompts.getD (r % crackedAFPrompts.length) ""

/-- The `switch (chatMode)` dispatch shared by Index.tsx `generatePrompt`
and `handleRefreshPrompt`. -/
def modePrompt (m : ChatMode) (r : Nat) : String :=
  match m with
  | ChatMode.quick => generateQuickModePrompt r
  | ChatMode.creativeFlow => generateCreativeFlowPrompt r
  | ChatMode.crackedAF => generateCrackedAFPrompt r

/-- The Index.tsx chat state: the `useState` cells the page's conversation
logic reads or writes (transient `isGeneratingPrompt` elided, timers
flattened as for ChatUI). -/
structure State where
  chatMode : ChatMode
  messages : List Message
  userMessageCount : Nat
  refreshCount : Nat
  generatedPrompt : String
deriving DecidableEq, Repr

def initialState : State :=
  { chatMode := ChatMode.quick
    messages := [⟨"Hey, what\x27s up? What\x27s on your mind?", Sender.system⟩]
    userMessageCount := 0
    refreshCount := 0
    generatedPrompt := "" }

/-- Index.tsx `handleSendMessage` (lines 124-151), message-append part: the
user text is stored untrimmed. -/
def handleSendMessage (s : State) (input : String) : State :=
  if jsTrim input = "" then s
  else
    { s with
      messages := s.messages ++ [⟨input, Sender.user⟩]
      userMessageCount := s.userMessageCount + 1 }

/-- Index.tsx `handleRefreshPrompt` (lines 154-203) with its timer
flattened: no-op at the refresh cap; otherwise increments `refreshCount`,
REMOVES the last message of the log
(`prev.filter((_, index) => index !== prev.length - 1)`, i.e. `dropLast`),
and appends the newly drawn prompt as a system message. -/
def handleRefreshPrompt (s : State) (r : Nat) : State :=
  if MAX_REFRESHES ≤ s.refreshCount then s
  else
    { s with
      refreshCount := s.refreshCount + 1
      messages := s.messages.dropLast ++ [⟨modePrompt s.chatMode r, Sender.system⟩]
      generatedPrompt := modePrompt s.chatMode r }

/-- The per-mode welcome message of Index.tsx `handleModeTransition`. -/
def welcomeMessage : ChatMode → String
  | ChatMode.quick => "Hey, what\x27s up? What\x27s on your mind?"
  | ChatMode.creativeFlow =>
    "Welcome to CreativeFlow! Let\x27s dive deeper into your creative ideas. What would you like to explore?"
  | ChatMode.crackedAF =>
    "You\x27ve unlocked Crack\x27d AF! This is where imagination meets innovation. Share your most ambitious ideas, and I\x27ll craft something extraordinary."

/-- Index.tsx `handleModeTransition` (lines 291-366): unconditionally
switches to the target mode, zeroes `userMessageCount` and `refreshCount`,
clears `generatedPrompt`, and replaces the whole log with the single
welcome message of the new mode.  There is no gating and no
preserve/discard choice in this function. -/
def handleModeTransition (_s : State) (newMode : ChatMode) : State :=
  { chatMode := newMode
    messages := [⟨welcomeMessage newMode, Sender.system⟩]
    userMessageCount := 0
    refreshCount := 0
    generatedPrompt := "" }

/-- The CreativeFlow tab's `disabled` condition (Index.tsx line 1154):
`userMessageCount < MAX_USER_MESSAGES && refreshCount < MAX_REFRESHES &&
chatMode === 'quick'`. -/
def creativeFlowTabDisabled (s : State) : Bool :=
  decide (s.userMessageCount < MAX_USER_MESSAGES) &&
  decide (s.refreshCount < MAX_REFRESHES) &&
  decide (s.chatMode = ChatMode.quick)

/-- The Crack'd AF tab's `disabled` condition (Index.tsx line 1180):
`userMessageCount < MAX_USER_MESSAGES && refreshCount < MAX_REFRESHES &&
chatMode === 'creativeFlow'`. -/
def crackedAFTabDisabled (s : State) : Bool :=
  decide (s.userMessageCount < MAX_USER_MESSAGES) &&
  decide (s.refreshCount < MAX_REFRESHES) &&
  decide (s.chatMode = ChatMode.creativeFlow)

/-- The Hammer `swipeleft` handler (Index.tsx lines 545-553): transitions
quick to creativeFlow and creativeFlow to crackedAF with no gating check. -/
def swipeLeft (s : State) : State :=
  match s.chatMode with
  | ChatMode.quick => handleModeTransition s ChatMode.creativeFlow
  | ChatMode.creativeFlow => handleModeTransition s ChatMode.crackedAF
  | ChatMode.crackedAF => s

/-- The Hammer `swiperight` handler (Index.tsx lines 555-563). -/
def swipeRight (s : State) : State :=
  match s.chatMode with
  | ChatMode.crackedAF => handleModeTransition s ChatMode.creativeFlow
  | ChatMode.creativeFlow => handleModeTransition s ChatMode.quick
  | ChatMode.quick => s

end Index

/-- A concrete Index state: seed message, one user message, one generated
prompt message (the current prompt), one refresh spent. -/
def sB : Index.State :=
  { chatMode := Index.ChatMode.quick
    messages := [⟨Index.welcomeMessage Index.ChatMode.quick, Sender.system⟩,
                 ⟨"ai", Sender.user⟩,
                 ⟨"old prompt", Sender.system⟩]
    userMessageCount := 1
    refreshCount := 0
    generatedPrompt := "old prompt" }

/-- C5 counterexample: in the Index.tsx page, a successful refresh removes
the previous prompt message from the log — "every message already in the
log is retained, never deleted" fails there. -/
theorem c5_counterexample :
    sB.refreshCount < MAX_REFRESHES ∧
    (⟨"old prompt", Sender.system⟩ : Index.Message) ∈ sB.messages ∧
    (⟨"old prompt", Sender.system⟩ : Index.Message)
      ∉ (Index.handleRefreshPrompt sB 0).messages := by
  refine ⟨by decide, by decide, by decide⟩

/-- C5 as amended: in the ChatUI widget every refresh leaves the existing
log a prefix of the new one (nothing is deleted or changed), and a
successful refresh appends the regenerated prompt as a new attachment
message while replacing only the text of the current-attachment record; in
the Index.tsx page, by contrast, a successful refresh first removes the
last message of the log (the previous prompt) and then appends the
refreshed one. -/
theorem c5_refresh_log_retention :
    (∀ (s : ChatState) (r : Nat), s.messages <+: (handleRefreshPrompt s r).messages) ∧
    (∀ (s : ChatState) (a : PromptAttachment) (r : Nat),
      s.currentAttachment = some a → s.refreshCount < MAX_REFRESHES →
      ∃ t, (handleRefreshPrompt s r).messages
          = s.messages ++ [mkSystem refreshingText, mkAttachment t a.level] ∧
        (handleRefreshPrompt s r).currentAttachment = some { a with text := t }) ∧
    (∀ (s : Index.State) (r : Nat), s.refreshCount < MAX_REFRESHES →
      (Index.handleRefreshPrompt s r).messages
        = s.messages.dropLast
            ++ [⟨Index.modePrompt s.chatMode r, Sender.system⟩]) := by
  refine ⟨?_, ?_, ?_⟩
  · intro s r
    rcases hA : s.currentAttachment with _ | a
    · rw [refresh_noop_none s r hA]
    · by_cases hcap : MAX_REFRESHES ≤ s.refreshCount
      · rw [refresh_noop_cap s r hcap]
      · obtain ⟨-, t, hm, -⟩ := refresh_success_proj s a r hA (not_le.mp hcap)
        rw [hm]
        exact List.prefix_append _ _
  · intro s a r hA hlt
    exact (refresh_success_proj s a r hA hlt).2
  · intro s r hlt
    unfold Index.handleRefreshPrompt
    rw [if_neg (not_le.mpr hlt)]

/-- Witness for C5's amended theorem: the Index-side conjunct applied at
the fresh Index state with draw 0. -/
theorem c5_refresh_log_retention_witness :
    (Index.handleRefreshPrompt Index.initialState 0).messages
      = Index.initialState.messages.dropLast
          ++ [⟨Index.modePrompt Index.initialState.chatMode 0, Sender.system⟩] :=
  c5_refresh_log_retention.2.2 Index.initialState 0 (by decide)

/-- C8 counterexample: from the fresh Index state — zero interactions —
one swipe enters the second mode and a second swipe enters the third mode,
so the claim that no path (including swipe gestures) enters the second mode
with fewer than 3 interactions or the third with fewer than 6 is false. -/
theorem c8_counterexample :
    Index.initialState.userMessageCount = 0 ∧
    (Index.swipeLeft Index.initialState).chatMode = Index.ChatMode.creativeFlow ∧
    (Index.swipeLeft (Index.swipeLeft Index.initialState)).chatMode
      = Index.ChatMode.crackedAF ∧
    (Index.swipeLeft (Index.swipeLeft Index.initialState)).userMessageCount = 0 := by
  exact ⟨rfl, rfl, rfl, rfl⟩

/-- C8 as amended: mode gating exists only as the tab buttons' `disabled`
flags — the CreativeFlow tab is disabled exactly when the mode is quick
with userMessageCount < 3 and refreshCount < 3, and the Crack'd AF tab
exactly when the mode is creativeFlow with userMessageCount < 3 and
refreshCount < 3; `handleModeTransition` itself always proceeds to the
target mode, the swipe handlers perform no gating at all, and the Crack'd
AF tab is never disabled while the mode is quick, so the second and third
modes are reachable with fewer than 3 (resp. 6) interactions. -/
theorem c8_gating_amended :
    (∀ (s : Index.State) (m : Index.ChatMode),
      (Index.handleModeTransition s m).chatMode = m) ∧
    (∀ s : Index.State,
      Index.creativeFlowTabDisabled s = true ↔
        (s.userMessageCount < Index.MAX_USER_MESSAGES ∧
         s.refreshCount < MAX_REFRESHES ∧
         s.chatMode = Index.ChatMode.quick)) ∧
    (∀ s : Index.State,
      Index.crackedAFTabDisabled s = true ↔
        (s.userMessageCount < Index.MAX_USER_MESSAGES ∧
         s.refreshCount < MAX_REFRESHES ∧
         s.chatMode = Index.ChatMode.creativeFlow)) ∧
    (∀ s : Index.State, s.chatMode = Index.ChatMode.quick →
      Index.crackedAFTabDisabled s = false) ∧
    (∀ s : Index.State, s.chatMode = Index.ChatMode.quick →
      (Index.swipeLeft s).chatMode = Index.ChatMode.creativeFlow) := by
  refine ⟨fun s m => rfl, ?_, ?_, ?_, ?_⟩
  · intro s
    simp [Index.creativeFlowTabDisabled, Bool.and_eq_true, decide_eq_true_eq, and_assoc]
  · intro s
    simp [Index.crackedAFTabDisabled, Bool.and_eq_true, decide_eq_true_eq, and_assoc]
  · intro s hq
    unfold Index.crackedAFTabDisabled
    rw [hq]
    simp
  · intro s hq
    unfold Index.swipeLeft
    rw [hq]
    rfl

/-- Witness for C8's amended theorem: from the fresh Index state (mode
quick), the Crack'd AF tab is enabled and a left swipe proceeds to the
second mode. -/
theorem c8_gating_amended_witness :
    Index.crackedAFTabDisabled Index.initialState = false ∧
    (Index.swipeLeft Index.initialState).chatMode = Index.ChatMode.creativeFlow :=
  ⟨c8_gating_amended.2.2.2.1 Index.initialState rfl,
   c8_gating_amended.2.2.2.2 Index.initialState rfl⟩

/-- A concrete Index state with the gating threshold met (3 user messages)
and prior conversation context including a generated prompt. -/
def sC : Index.State :=
  { chatMode := Index.ChatMode.quick
    messages := [⟨Index.welcomeMessage Index.ChatMode.quick, Sender.system⟩,
                 ⟨"ai", Sender.user⟩,
                 ⟨"casual tone", Sender.user⟩,
                 ⟨"developers", Sender.user⟩,
                 ⟨"some generated prompt", Sender.system⟩]
    userMessageCount := 3
    refreshCount := 1
    generatedPrompt := "some generated prompt" }

/-- C9 counterexample: with gating satisfied and prior messages present, the
one and only transition behaviour discards everything — the resulting log
is the single welcome message of the target mode (no prior user text
survives anywhere, no transition system message is appended to the old log,
and the regenerated prompt is empty), so no "Preserve" resolution with
concatenated prior topics exists. -/
theorem c9_counterexample :
    sC.userMessageCount = Index.MAX_USER_MESSAGES ∧
    (⟨"ai", Sender.user⟩ : Index.Message) ∈ sC.messages ∧
    (Index.handleModeTransition sC Index.ChatMode.creativeFlow).messages
      = [⟨Index.welcomeMessage Index.ChatMode.creativeFlow, Sender.system⟩] ∧
    (Index.handleModeTransition sC Index.ChatMode.creativeFlow).generatedPrompt = "" ∧
    (Index.handleModeTransition sC Index.ChatMode.creativeFlow).userMessageCount = 0 ∧
    (¬ ∃ m ∈ (Index.handleModeTransition sC Index.ChatMode.creativeFlow).messages,
        m.sender = Sender.user) := by
  refine ⟨rfl, by decide, rfl, rfl, rfl, by decide⟩

/-- C9 as amended: `handleModeTransition` offers no Preserve resolution —
every mode transition discards: its result does not depend on the prior
state at all, and it consists of exactly one seed welcome message for the
target mode with `userMessageCount`, `refreshCount` and `generatedPrompt`
zeroed/cleared (the claim's Discard half). -/
theorem c9_transition_always_discards :
    (∀ (s s' : Index.State) (m : Index.ChatMode),
      Index.handleModeTransition s m = Index.handleModeTransition s' m) ∧
    (∀ (s : Index.State) (m : Index.ChatMode),
      (Index.handleModeTransition s m).chatMode = m ∧
      (Index.handleModeTransition s m).messages
        = [⟨Index.welcomeMessage m, Sender.system⟩] ∧
      (Index.handleModeTransition s m).userMessageCount = 0 ∧
      (Index.handleModeTransition s m).refreshCount = 0 ∧
      (Index.handleModeTransition s m).generatedPrompt = "") :=
  ⟨fun _ _ _ => rfl, fun _ _ => ⟨rfl, rfl, rfl, rfl, rfl⟩⟩

end PromptDiy
